import Mathlib

/-!
# Verification of the utel_integration call-sync module

Shallow embedding of the call-synchronization module (models/utel_call.py,
controllers/utel.py).  Python strings are Lean `String`s manipulated via their
character lists; Python `int` is `Int`; fallible Python code returns
`Except PyErr`.  Dictionaries of vendor records are association lists of
string key/value pairs (all vendor field values that the claims exercise are
strings).  The `ir.config_parameter` store is a `Config` structure whose
fields are `Option String` (`none` = parameter not set, mirroring
`get_param` returning a default).
-/

/-- Python exception kinds raised by the modelled code paths. -/
inductive PyErr where
  | attributeError
  | valueError
  | userError
deriving DecidableEq, Repr

/-! ## Python string primitives (character-list based) -/

/-- Python `str.strip()` on the left: drop leading whitespace characters. -/
def dropLeftWs (l : List Char) : List Char := l.dropWhile Char.isWhitespace

/-- Python `str.strip()`: whitespace removed from both ends. -/
def pyStrip (s : String) : String :=
  ⟨((dropLeftWs s.data).reverse.dropWhile Char.isWhitespace).reverse⟩

/-- Python `str.lower()` (ASCII case folding, which covers every input used here). -/
def pyLower (s : String) : String := ⟨s.data.map Char.toLower⟩

/-- Python slicing `s[n:]` (by characters). -/
def pyDrop (s : String) (n : Nat) : String := ⟨s.data.drop n⟩

/-- Python `s.startswith(p)`. -/
def pyStartsWith (s p : String) : Bool := p.data.isPrefixOf s.data

/-- Python `c in s` for a single-character needle. -/
def pyContainsChar (s : String) (c : Char) : Bool := s.data.contains c

/-- Split a character list on a separator character; `split` of the empty
string is `[[]]`, matching Python `"".split(":") == [""]`. -/
def splitOnChar (c : Char) : List Char → List (List Char)
  | [] => [[]]
  | x :: xs =>
    let r := splitOnChar c xs
    if x = c then [] :: r
    else
      match r with
      | h :: t => (x :: h) :: t
      | [] => [[x]]

/-- Python `s.split(sep)` for a one-character separator. -/
def pySplit (s : String) (c : Char) : List String :=
  (splitOnChar c s.data).map (fun l => ⟨l⟩)

/-- Digits of a character list interpreted in base 10; `none` unless the list
is non-empty and all ASCII digits. -/
def digitsToNat (l : List Char) : Option Nat :=
  if l ≠ [] ∧ l.all Char.isDigit then
    some (l.foldl (fun acc c => acc * 10 + (c.toNat - '0'.toNat)) 0)
  else none

/-- Python `int(s)` for a string argument: surrounding whitespace is ignored,
an optional sign is allowed, otherwise the string must be all digits;
`none` models `ValueError`. -/
def pyInt (s : String) : Option Int :=
  match (pyStrip s).data with
  | '-' :: rest => (digitsToNat rest).map (fun n => -(n : Int))
  | '+' :: rest => (digitsToNat rest).map (fun n => (n : Int))
  | t => (digitsToNat t).map (fun n => (n : Int))

/-! ## Module-level helpers of models/utel_call.py -/

/-- `_digits_only`: keep only digit characters of the string. -/
def digitsOnly (s : String) : String := ⟨s.data.filter Char.isDigit⟩

/-- `_uz_digits`: a 9-digit number gets the "998" country prefix. -/
def uzDigits (d : String) : String :=
  let s := digitsOnly d
  if s.length = 9 then "998" ++ s else s

/-- `_parse_hms`: `"M:S"` or `"H:M:S"` to seconds; any other shape is tried
as a plain integer; every `int` failure is caught and yields 0
(the function is total). -/
def parse_hms (val : String) : Int :=
  if val = "" then 0
  else
    let parts := pySplit val ':'
    if parts.length = 2 then
      match pyInt (parts.getD 0 ""), pyInt (parts.getD 1 "") with
      | some m, some s => m * 60 + s
      | _, _ => 0
    else if parts.length = 3 then
      match pyInt (parts.getD 0 ""), pyInt (parts.getD 1 ""), pyInt (parts.getD 2 "") with
      | some h, some m, some s => h * 3600 + m * 60 + s
      | _, _, _ => 0
    else
      match pyInt val with
      | some n => n
      | none => 0

/-- The duration branch of `_to_vals` (utel_call.py lines 753-754):
`_parse_hms(txt) if ":" in txt else int(txt or 0)`.  The `else` branch calls
`int` with no exception handler, so a non-empty, non-integer string raises
`ValueError`. -/
def durationSeconds (txt : String) : Except PyErr Int :=
  if pyContainsChar txt ':' then .ok (parse_hms txt)
  else if txt = "" then .ok 0
  else
    match pyInt txt with
    | some n => .ok n
    | none => .error .valueError

/-- Decidable equality of `Except` results (both components decidable). -/
instance {α β : Type} [DecidableEq α] [DecidableEq β] : DecidableEq (Except α β) := fun a b =>
  match a, b with
  | .ok x, .ok y =>
    if h : x = y then .isTrue (by rw [h]) else .isFalse (by intro hc; cases hc; exact h rfl)
  | .error x, .error y =>
    if h : x = y then .isTrue (by rw [h]) else .isFalse (by intro hc; cases hc; exact h rfl)
  | .ok _, .error _ => .isFalse (by intro hc; cases hc)
  | .error _, .ok _ => .isFalse (by intro hc; cases hc)

/-! ## Configuration (`ir.config_parameter` store)

One optional string per `utel_integration.*` parameter; `none` models an
unset parameter (for which `get_param` returns its default). -/

structure Config where
  base_url : Option String := none
  token : Option String := none
  per_page : Option String := none
  auto_days : Option String := none
  tz : Option String := none
  internal_extensions : Option String := none
  did_numbers : Option String := none
  webhook_token : Option String := none
deriving DecidableEq, Repr

/-! ## Attribute layout of the `utel.call` class

In models/utel_call.py the block at lines 318-426 is indented one level too
deep: its `def`s sit inside the body of `_compute_type_icon_html`, so they
are local functions of that method, not attributes of the class.  The lists
below transcribe which names are defined at class level (in utel_call.py and
in the `_inherit = "utel.call"` class of models/utel_call_actions.py) and
which are nested.  An attribute access `self.<name>` for one of the
module-specific helper names succeeds iff the name is defined at class level
(none of these names exists on the Odoo base model). -/

/-- Names defined at class-body indentation in `class UtelCall` (utel_call.py). -/
def utelCallClassMethods : List String :=
  ["_compute_time_display", "_format_seconds", "_compute_normals",
   "_compute_player_html", "_compute_type_icon_html",
   "_find_partner_by_numbers", "_get_or_create_partner_by_number",
   "_assign_partner_from_numbers", "_upsert_from_vals", "create", "write",
   "action_open_play", "action_open_download", "action_delete_selected",
   "_notify_enabled", "_notify_target_users", "_bus_send_compat",
   "_broadcast_new_calls", "_get_conn", "_fetch_page", "_to_vals",
   "action_sync_all_pages", "cron_sync_recent"]

/-- Names defined one indentation level deeper, inside the body of
`_compute_type_icon_html` (utel_call.py lines 318-426): local functions and
one local binding, not class attributes. -/
def computeTypeIconHtmlLocals : List String :=
  ["_utel_tz", "_parse_utel_datetime", "_build_fp_key_from_vals",
   "_recompute_fp_key", "_internal_extensions", "_is_internal_number",
   "_company_dids", "_external_candidates", "_NUM_TO_PARTNER_CACHE"]

/-- Methods added by the `_inherit = "utel.call"` class in
models/utel_call_actions.py. -/
def utelCallActionsMethods : List String :=
  ["action_open_play", "action_open_download", "action_delete_call",
   "action_delete_selected", "action_open_with_toast"]

/-- `self.<name>` resolution for the module-defined helper names. -/
def utelCallHasAttr (name : String) : Bool :=
  utelCallClassMethods.contains name || utelCallActionsMethods.contains name

/-! ## Datetimes and call values -/

/-- A timezone-naive datetime as stored on `date_time` (UTC, second
precision), standing in for Python `datetime`. -/
structure PyDateTime where
  year : Nat
  month : Nat
  day : Nat
  hour : Nat
  minute : Nat
  second : Nat
deriving DecidableEq, Repr

/-- Zero-pad to width 2 (strftime `%m`, `%d`, `%H`, `%M`, `%S`). -/
def pad2 (n : Nat) : String := if n < 10 then "0" ++ Nat.repr n else Nat.repr n

/-- Zero-pad to width 4 (strftime `%Y`). -/
def pad4 (n : Nat) : String :=
  if n < 10 then "000" ++ Nat.repr n
  else if n < 100 then "00" ++ Nat.repr n
  else if n < 1000 then "0" ++ Nat.repr n
  else Nat.repr n

/-- `dt.strftime("%Y-%m-%d %H:%M:%S")`. -/
def pyStrftime (dt : PyDateTime) : String :=
  pad4 dt.year ++ "-" ++ pad2 dt.month ++ "-" ++ pad2 dt.day ++ " " ++
    pad2 dt.hour ++ ":" ++ pad2 dt.minute ++ ":" ++ pad2 dt.second

/-- The dict produced by `_to_vals` (and consumed by `_upsert_from_vals` /
`create`): field per key.  `date_time` is `none` when the datetime failed to
parse (`False` in Python); `company_id` is `none` until `setdefault` runs;
`fp_key` is `""` until the upsert/create path sets it. -/
structure Vals where
  utel_id : String := ""
  date_time : Option PyDateTime := none
  type : String := ""
  src : String := ""
  dst : String := ""
  external_number : String := ""
  talk_time : Int := 0
  ring_time : Int := 0
  status : String := ""
  play_url : String := ""
  download_url : String := ""
  has_recording : Bool := false
  fp_key : String := ""
  company_id : Option Nat := none
deriving DecidableEq, Repr

/-- Body of the (nested) `_build_fp_key_from_vals` helper:
`f"{t}|{dt_s}|{srcn}|{dstn}|{extn}"` where `dt_s` is the second-precision
strftime of `date_time` (or `""` when it is absent/False). -/
def build_fp_key_from_vals (v : Vals) : String :=
  let t := pyStrip v.type
  let srcn := digitsOnly v.src
  let dstn := digitsOnly v.dst
  let extn := digitsOnly v.external_number
  let dt_s := match v.date_time with
    | some dt => pyStrftime dt
    | none => ""
  t ++ "|" ++ dt_s ++ "|" ++ srcn ++ "|" ++ dstn ++ "|" ++ extn

/-! ## Vendor records and `_to_vals` -/

/-- A raw vendor record: an association list of string-valued fields
(`rec.get(k)` is the first binding of `k`, or None when absent; the claims
only exercise string values, for which `_as_text` is the identity and a
missing key behaves like `""` in every `or` chain of `_to_vals`). -/
abbrev VendorRec := List (String × String)

/-- `_as_text(rec.get(k)) or ""`-style access: the value under `k`, or `""`. -/
def getS (rec : VendorRec) (k : String) : String :=
  match rec.find? (fun p => p.1 = k) with
  | some p => p.2
  | none => ""

/-- `rec.get(k1) or rec.get(k2) or ...`: first non-falsy value of the alias
chain, else `""`. -/
def firstNonempty (rec : VendorRec) : List String → String
  | [] => ""
  | k :: ks => let v := getS rec k; if v ≠ "" then v else firstNonempty rec ks

/-- The field construction of `_to_vals` (utel_call.py lines 749-790),
parameterized by the already-parsed datetime `dt` (the `_parse_utel_datetime`
call of line 747 is modelled separately: see `to_vals`).  The duration
branches can raise `ValueError` (bare `int` call). -/
def to_vals_fields (rec : VendorRec) (dt : Option PyDateTime) : Except PyErr Vals := do
  let talk_txt := firstNonempty rec ["talk_time", "conversation", "duration"]
  let ring_txt := firstNonempty rec ["ring_time", "ringing", "wait_time"]
  let talk_sec ← durationSeconds talk_txt
  let ring_sec ← durationSeconds ring_txt
  let rtype_txt := pyLower (getS rec "type")
  let rtype :=
    if rtype_txt = "incoming" ∨ rtype_txt = "in" then "in"
    else if rtype_txt = "outgoing" ∨ rtype_txt = "out" then "out"
    else if rtype_txt = "missed" ∨ rtype_txt = "miss" ∨ rtype_txt = "noanswer" ∨
        rtype_txt = "not answered" then "missed"
    else "other"
  let status_txt := getS rec "status"
  let play := firstNonempty rec
    ["recorded_file_url", "play_url", "listen_url", "record_url", "audio_url", "stream_url"]
  let download := firstNonempty rec ["download_url", "record_download_url", "file_url"]
  .ok { utel_id := getS rec "id"
        date_time := dt
        type := rtype
        src := getS rec "src"
        dst := getS rec "dst"
        external_number := getS rec "external_number"
        talk_time := talk_sec
        ring_time := ring_sec
        status := status_txt
        play_url := play
        download_url := download
        has_recording := play ≠ "" || download ≠ ""
        fp_key := ""
        company_id := none }

/-- Partial model of the body of the nested local `_parse_utel_datetime`
(utel_call.py lines 327-344): the `strptime("%Y-%m-%d %H:%M:%S")` branch for
plain timestamps; other shapes yield `none`.  The ISO/timezone branch is not
needed by any reachable path, because the lookup `self._parse_utel_datetime`
never resolves (the function is not a class attribute). -/
def parse_dt_model (txt : String) : Option PyDateTime :=
  let s := pyStrip txt
  match pySplit s ' ' with
  | [d, t] =>
    (match pySplit d '-', pySplit t ':' with
     | [y, mo, da], [h, mi, se] =>
       (match digitsToNat y.data, digitsToNat mo.data, digitsToNat da.data,
           digitsToNat h.data, digitsToNat mi.data, digitsToNat se.data with
        | some yn, some mon, some dan, some hn, some min_, some sen =>
          if 1 ≤ mon ∧ mon ≤ 12 ∧ 1 ≤ dan ∧ dan ≤ 31 ∧ hn ≤ 23 ∧ min_ ≤ 59 ∧ sen ≤ 59 then
            some ⟨yn, mon, dan, hn, min_, sen⟩
          else none
        | _, _, _, _, _, _ => none)
     | _, _ => none)
  | _ => none

/-- `_to_vals` as invoked on the model (`self._to_vals(rec)`): its first
statement calls `self._parse_utel_datetime(...)`, an attribute lookup that
fails because `_parse_utel_datetime` is a local function of
`_compute_type_icon_html`, so the method raises `AttributeError` before
reading any field. -/
def to_vals (rec : VendorRec) : Except PyErr Vals :=
  if utelCallHasAttr "_parse_utel_datetime" then
    to_vals_fields rec
      (parse_dt_model (firstNonempty rec ["date_time", "datetime", "time", "started_at"]))
  else .error .attributeError

/-! ## Stored call records and the ORM paths

`CallDB` is the `utel.call` table: stored rows in insertion order (Odoo
search order for these lookups) plus the id sequence.  `model_write`
overwrites a row with a vals dict; absence of the `company_id` / `fp_key`
keys in a dict is encoded by `none` / `""` (the fingerprint string always
contains pipes, so a set fingerprint is never `""`). -/

structure StoredCall where
  id : Nat
  v : Vals
deriving DecidableEq, Repr

structure CallDB where
  recs : List StoredCall := []
  nextId : Nat := 0
deriving DecidableEq, Repr

/-- `models.Model.create`: append one row per vals dict, drawing fresh ids. -/
def superCreate (db : CallDB) (vl : List Vals) : CallDB × List Nat :=
  vl.foldl
    (fun (st : CallDB × List Nat) v =>
      let id := st.1.nextId + 1
      ({ recs := st.1.recs ++ [⟨id, v⟩], nextId := id }, st.2 ++ [id]))
    (db, [])

/-- The create/write hook `_assign_partner_from_numbers`: for each record of
a non-empty recordset it calls `rec._find_partner_by_numbers()`, whose body
immediately evaluates `self._external_candidates()` — an attribute lookup
that fails because `_external_candidates` is a local function of
`_compute_type_icon_html`.  For an empty recordset the loop body never runs.
(The `then` branch — reached only if the lookup resolved, which it never
does — performs partner searches that touch no `utel.call` column, so it is
a no-op on `CallDB`.) -/
def assign_partner_hook (ids : List Nat) : Option PyErr :=
  match ids with
  | [] => none
  | _ => if utelCallHasAttr "_external_candidates" then none else some .attributeError

/-- The per-vals loop of the `create` override (utel_call.py lines 616-618):
`v.setdefault("company_id", ...)` and then
`v["fp_key"] = self._build_fp_key_from_vals(v)` — an attribute lookup that
fails, so the first element of a non-empty vals list raises
`AttributeError`. -/
def prepVals (company : Nat) : List Vals → Except PyErr (List Vals)
  | [] => .ok []
  | v :: vs =>
    if utelCallHasAttr "_build_fp_key_from_vals" then
      let v' := { v with company_id := some (v.company_id.getD company) }
      match prepVals company vs with
      | .ok rest => .ok ({ v' with fp_key := build_fp_key_from_vals v' } :: rest)
      | .error e => .error e
    else .error PyErr.attributeError

/-- The `create` override (utel_call.py lines 614-621): the per-vals loop
(`prepVals`), then `super().create` and the partner-assignment hook.  A
non-empty vals list raises `AttributeError` in the loop before
`super().create` runs; an empty list reaches `super().create([])` and the
(empty) partner-assignment loop and completes. -/
def model_create (db : CallDB) (vl : List Vals) (company : Nat) :
    CallDB × Except PyErr (List Nat) :=
  match prepVals company vl with
  | .error e => (db, .error e)
  | .ok vl' =>
    let (db1, ids) := superCreate db vl'
    match assign_partner_hook ids with
    | some e => (db1, .error e)
    | none => (db1, .ok ids)

/-- The `write` override (utel_call.py lines 623-628) applied to a full
`_to_vals`-shaped dict: `super().write` overwrites the stored columns first;
then, because the written keys always meet
`{src, dst, external_number, date_time, type}`, the hook calls
`self._recompute_fp_key()` — an attribute lookup that fails.  The overwrite
persists while the `AttributeError` propagates to the caller. -/
def model_write (db : CallDB) (rid : Nat) (vals : Vals) : CallDB × Option PyErr :=
  let db1 : CallDB :=
    { db with
      recs := db.recs.map (fun r =>
        if r.id = rid then
          { r with v :=
            { vals with
              company_id := if vals.company_id.isSome then vals.company_id else r.v.company_id
              fp_key := if vals.fp_key ≠ "" then vals.fp_key else r.v.fp_key } }
        else r) }
  (db1, if utelCallHasAttr "_recompute_fp_key" then none else some PyErr.attributeError)

/-- `_upsert_from_vals` (utel_call.py lines 588-611).  Its second statement
`vals["fp_key"] = self._build_fp_key_from_vals(vals)` is an attribute lookup
that fails, so every invocation raises `AttributeError` before any search.
(The `then` branch transcribes the lookup order of lines 594-611: exact
`utel_id` + company match, then exact fingerprint + company match, first hit
written in place, otherwise create.) -/
def upsert_from_vals (db : CallDB) (vals0 : Vals) (company : Nat) :
    CallDB × Except PyErr Nat :=
  let vals1 := { vals0 with company_id := some (vals0.company_id.getD company) }
  if utelCallHasAttr "_build_fp_key_from_vals" then
    let vals := { vals1 with fp_key := build_fp_key_from_vals vals1 }
    let uid := pyStrip vals.utel_id
    let byUid :=
      if uid ≠ "" then
        db.recs.find? (fun r => (r.v.utel_id == uid) && (r.v.company_id == some company))
      else none
    match byUid with
    | some r =>
      let (db1, err) := model_write db r.id vals
      (db1, match err with | some e => .error e | none => .ok r.id)
    | none =>
      match db.recs.find? (fun r => (r.v.fp_key == vals.fp_key) && (r.v.company_id == some company)) with
      | some r =>
        let (db1, err) := model_write db r.id vals
        (db1, match err with | some e => .error e | none => .ok r.id)
      | none =>
        match model_create db [vals] company with
        | (db1, .error e) => (db1, .error e)
        | (db1, .ok ids) => (db1, .ok (ids.getD 0 0))
  else (db, .error PyErr.attributeError)

/-! ## Connection parameters and the sync orchestrator -/

/-- Python `s.rstrip("/")`. -/
def rstripSlash (s : String) : String := ⟨(s.data.reverse.dropWhile (· = '/')).reverse⟩

/-- `_get_conn` (utel_call.py lines 719-726): base URL, token and page size
from configuration; the page-size `int` parse can raise `ValueError`, and a
missing base/token raises the configuration `UserError`. -/
def get_conn (cfg : Config) : Except PyErr (String × String × Int) :=
  let base := rstripSlash (cfg.base_url.getD "")
  let token := pyStrip (cfg.token.getD "")
  let ppTxt := cfg.per_page.getD "50"
  match (if ppTxt = "" then some 50 else pyInt ppTxt) with
  | none => .error .valueError
  | some per_page =>
    if base = "" ∨ token = "" then .error .userError
    else .ok (base, token, per_page)

/-- `int(ICP.get_param(PARAM_AUTO_DAYS, default="3") or 3)`. -/
def auto_days_of (cfg : Config) : Option Int :=
  let t := cfg.auto_days.getD "3"
  if t = "" then some 3 else pyInt t

structure SyncCounts where
  processed : Nat := 0
  created : Nat := 0
  updated : Nat := 0
deriving DecidableEq, Repr

/-- One record of the sync loop (utel_call.py lines 816-829): `_to_vals`,
skip when `date_time` is falsy, classify as created/updated by counting
fingerprint matches before and after the upsert.  Both `_to_vals` (via
`self._parse_utel_datetime`) and the `search_count` domain (via
`self._build_fp_key_from_vals`) perform attribute lookups that fail. -/
def syncOneRec (db : CallDB) (company : Nat) (counts : SyncCounts) (rec : VendorRec) :
    CallDB × Except PyErr SyncCounts :=
  match to_vals rec with
  | .error e => (db, .error e)
  | .ok vals =>
    if vals.date_time = none then (db, .ok counts)
    else
      if utelCallHasAttr "_build_fp_key_from_vals" then
        let fp := build_fp_key_from_vals vals
        let before :=
          (db.recs.filter (fun r => (r.v.fp_key == fp) && (r.v.company_id == some company))).length
        match upsert_from_vals db vals company with
        | (db1, .error e) => (db1, .error e)
        | (db1, .ok rid) =>
          let objFp := (((db1.recs.find? (fun r => r.id == rid)).map (fun r => r.v.fp_key)).getD "")
          let after :=
            (db1.recs.filter (fun r => (r.v.fp_key == objFp) && (r.v.company_id == some company))).length
          let counts' :=
            if 0 < before ∧ 0 < after then
              { counts with updated := counts.updated + 1, processed := counts.processed + 1 }
            else
              { counts with created := counts.created + 1, processed := counts.processed + 1 }
          (db1, .ok counts')
      else (db, .error PyErr.attributeError)

/-- The per-page record loop; an uncaught exception aborts the whole sync. -/
def syncRecords (db : CallDB) (company : Nat) (counts : SyncCounts) :
    List VendorRec → CallDB × Except PyErr SyncCounts
  | [] => (db, .ok counts)
  | r :: rs =>
    match syncOneRec db company counts r with
    | (db1, .error e) => (db1, .error e)
    | (db1, .ok c1) => syncRecords db1 company c1 rs

/-- The page loop of `action_sync_all_pages` (lines 809-832): pages from
`page` while `remaining` pages are allowed; stops on an empty page or when a
page returns fewer records than `per_page`. -/
def syncPages (fetch : Nat → Except PyErr (List VendorRec)) (company : Nat) (per_page : Int)
    (db : CallDB) (counts : SyncCounts) (page : Nat) :
    Nat → CallDB × Except PyErr SyncCounts
  | 0 => (db, .ok counts)
  | n + 1 =>
    match fetch page with
    | .error e => (db, .error e)
    | .ok data =>
      if data = [] then (db, .ok counts)
      else
        match syncRecords db company counts data with
        | (db1, .error e) => (db1, .error e)
        | (db1, .ok c1) =>
          if (data.length : Int) < per_page then (db1, .ok c1)
          else syncPages fetch company per_page db1 c1 (page + 1) n

/-- `action_sync_all_pages` (utel_call.py lines 792-847).  `_get_conn` and
the auto-days parse run first (their failures are configuration errors);
the very next statement `local_tz = self._utel_tz()` is an attribute lookup
that fails because `_utel_tz` is a local function of
`_compute_type_icon_html`, so the fetch loop is never entered.  The page
fetcher is abstracted as `fetch` (page number to the `data` list of
`_fetch_page`, or a transport/parse error); the final notification broadcast
is try/except-swallowed and touches no call record, so it does not appear in
the result. -/
def action_sync_all_pages (cfg : Config) (fetch : Nat → Except PyErr (List VendorRec))
    (db : CallDB) (company : Nat) (page_limit : Nat) : CallDB × Except PyErr SyncCounts :=
  match get_conn cfg with
  | .error e => (db, .error e)
  | .ok (_base, _token, per_page) =>
    match auto_days_of cfg with
    | none => (db, .error .valueError)
    | some _days =>
      if utelCallHasAttr "_utel_tz" then
        syncPages fetch company per_page db {} 1 page_limit
      else (db, .error PyErr.attributeError)

/-! ## Webhook ingestor (controllers/utel.py) -/

/-- The decoded webhook body: a bare JSON list, a JSON object (with, when the
`"data"` key holds a list, that list alongside the object's string-valued
fields viewed as one record), or any non-list non-dict value. -/
inductive WebhookBody where
  | jlist (recs : List VendorRec)
  | jdict (fields : VendorRec) (dataList : Option (List VendorRec))
  | jother
deriving Repr

/-- The body-shape normalization of `utel_webhook` (lines 68-73): a list is
taken as is; a dict contributes its `"data"` list when that is a list and is
otherwise wrapped as a single record; anything else yields no records. -/
def webhookRecords : WebhookBody → List VendorRec
  | .jlist recs => recs
  | .jdict fields dataList =>
    match dataList with
    | some l => l
    | none => [fields]
  | .jother => []

/-- The two response shapes of the webhook route. -/
inductive WebResp where
  | unauthorized
  | result (created updated : Nat)
deriving DecidableEq, Repr

/-- HTTP status of a webhook response: 401 for the auth failure, else 200. -/
def WebResp.statusCode : WebResp → Nat
  | .unauthorized => 401
  | .result _ _ => 200

/-- The `"ok"` field of the webhook JSON body (`false` only on auth failure;
the 401 body also carries `"error": "unauthorized"`). -/
def WebResp.okField : WebResp → Bool
  | .unauthorized => false
  | .result _ _ => true

/-- `_cfg_token`: the configured webhook shared secret, stripped. -/
def cfg_token (cfg : Config) : String := pyStrip (cfg.webhook_token.getD "")

/-- `_auth_ok` (controllers/utel.py lines 15-25): strip the Authorization
header; reject when no secret is configured; accept the bare secret or a
case-insensitive `"Bearer "` prefix whose remainder, stripped, equals the
secret. -/
def auth_ok (cfg : Config) (authHeader : String) : Bool :=
  let hdr := pyStrip authHeader
  let tok := cfg_token cfg
  if tok = "" then false
  else if hdr = tok then true
  else if pyStartsWith (pyLower hdr) "bearer " ∧ pyStrip (pyDrop hdr 7) = tok then true
  else false

/-- One webhook record (controllers/utel.py lines 79-94), the try-block body:
`Model._to_vals(rec)` (whose first statement is the failing
`self._parse_utel_datetime` lookup), the `utel_id` skip, then an exact
`utel_id` + company search deciding `write` (update) versus `create`.
Result: the db after any side effect, and either the exception the handler
catches or the counter effect (`none` = skipped by the `utel_id` check). -/
def webhookUpsertOne (db : CallDB) (company : Nat) (rec : VendorRec) :
    CallDB × Except PyErr (Option Bool) :=
  match to_vals rec with
  | .error e => (db, .error e)
  | .ok vals =>
    if vals.utel_id = "" then (db, .ok none)
    else
      match db.recs.find? (fun r => (r.v.utel_id == vals.utel_id) && (r.v.company_id == some company)) with
      | some r =>
        let (db1, err) := model_write db r.id vals
        (db1, match err with | some e => .error e | none => .ok (some false))
      | none =>
        match model_create db [vals] company with
        | (db1, .error e) => (db1, .error e)
        | (db1, .ok _) => (db1, .ok (some true))

/-- The `/utel/webhooks/call` route (lines 58-98): 401 on auth failure;
otherwise each record is processed with per-record exceptions caught, logged
and skipped, and the response reports the created/updated counters. -/
def utel_webhook (cfg : Config) (authHeader : String) (body : WebhookBody)
    (db : CallDB) (company : Nat) : CallDB × WebResp :=
  if ¬ auth_ok cfg authHeader then (db, .unauthorized)
  else
    let step := fun (st : CallDB × Nat × Nat) (rec : VendorRec) =>
      match webhookUpsertOne st.1 company rec with
      | (db1, .error _) => (db1, st.2)
      | (db1, .ok none) => (db1, st.2)
      | (db1, .ok (some true)) => (db1, (st.2.1 + 1, st.2.2))
      | (db1, .ok (some false)) => (db1, (st.2.1, st.2.2 + 1))
    let out := (webhookRecords body).foldl step (db, 0, 0)
    (out.1, .result out.2.1 out.2.2)

/-! ## Candidate numbers (the nested `_external_candidates` block)

The bodies of the nested local functions `_internal_extensions`,
`_is_internal_number`, `_company_dids` and `_external_candidates`
(utel_call.py lines 362-424), embedded as functions of the configuration and
of the record's relevant columns.  (As written in the source they are local
functions of `_compute_type_icon_html` and unreachable through `self.`; the
bodies themselves are transcribed here because claims are stated about the
candidate list they compute.) -/

/-- The source/destination/external/type columns `_external_candidates`
reads. -/
structure CallView where
  type : String := ""
  src : String := ""
  dst : String := ""
  external_number : String := ""
deriving DecidableEq, Repr

/-- `_internal_extensions`: comma-separated configured extensions, stripped,
empties dropped (a set; modelled as a list used only for membership). -/
def internal_extensions (cfg : Config) : List String :=
  ((pySplit (cfg.internal_extensions.getD "") ',').map pyStrip).filter (fun x => x ≠ "")

/-- `_is_internal_number`: empty or digit-free numbers, configured
extensions, and numbers of at most 5 digits count as internal. -/
def is_internal_number (cfg : Config) (raw_num : String) : Bool :=
  if raw_num = "" then true
  else
    let d := digitsOnly raw_num
    if d = "" then true
    else if d ∈ internal_extensions cfg then true
    else if d.length ≤ 5 then true
    else false

/-- `_company_dids`: digit forms of the comma-separated configured DID list
(a set; modelled as a list used only for membership). -/
def company_dids (cfg : Config) : List String :=
  (((pySplit (pyStrip (cfg.did_numbers.getD "")) ',').map digitsOnly).filter (fun d => d ≠ ""))

/-- The final `if not out:` fallback of `_external_candidates` (lines
419-423): re-admit any non-internal source/destination number, with no DID
check. -/
def fallbackStep (cfg : Config) (acc : List String) (raw : String) : List String :=
  let d := digitsOnly raw
  if d ≠ "" ∧ ¬ is_internal_number cfg d then acc ++ [uzDigits d] else acc

/-- The `consider` closure of `_external_candidates` (lines 398-407) acting
on the `(out, seen)` state: skip empty or already-seen digit strings, record
them as seen, then drop DIDs and internal numbers, appending `_uz_digits`
of the rest. -/
def considerStep (dids : List String) (cfg : Config)
    (st : List String × List String) (raw : String) : List String × List String :=
  let d := digitsOnly raw
  if d = "" ∨ d ∈ st.2 then st
  else
    let seen := d :: st.2
    if d ∈ dids then (st.1, seen)
    else if is_internal_number cfg d then (st.1, seen)
    else (st.1 ++ [uzDigits d], seen)

/-- Python `dict.fromkeys`: drop duplicates keeping first occurrences
(`seen` accumulates the keys already kept). -/
def dedupFirst (seen : List String) : List String → List String
  | [] => []
  | x :: xs => if x ∈ seen then dedupFirst seen xs else x :: dedupFirst (x :: seen) xs

/-- The pre-dedup candidate sequence of `_external_candidates` (lines
389-423, the value of `out` just before the final `dict.fromkeys`): the
configured DIDs plus the record's own external number are excluded, the
source/destination numbers are considered in direction order, and — when
that yields nothing — a fallback re-admits any non-internal
source/destination number (without the DID check). -/
def candidateSeq (cfg : Config) (rec : CallView) : List String :=
  let dids0 := company_dids cfg
  let payload_did := digitsOnly rec.external_number
  let dids := if payload_did = "" then dids0 else dids0 ++ [payload_did]
  let ordered :=
    if pyLower rec.type = "in" then [rec.src, rec.dst]
    else if pyLower rec.type = "out" then [rec.dst, rec.src]
    else [rec.src, rec.dst]
  let primary := (ordered.foldl (considerStep dids cfg) ([], [])).1
  if primary = [] then [rec.src, rec.dst].foldl (fallbackStep cfg) [] else primary

/-- `_external_candidates` (lines 389-424): the candidate sequence above,
deduplicated by `list(dict.fromkeys(out))` keeping first occurrences. -/
def external_candidates (cfg : Config) (rec : CallView) : List String :=
  dedupFirst [] (candidateSeq cfg rec)

/-! ## Contact resolver (`_get_or_create_partner_by_number`) -/

/-- Substring test on character lists (Python `needle in hay`). -/
def containsSub (needle : List Char) : List Char → Bool
  | [] => needle.isEmpty
  | x :: xs => needle.isPrefixOf (x :: xs) || containsSub needle xs

/-- Python `needle in hay` for strings (the `ilike` pattern here is all
digits, so SQL case-insensitivity changes nothing). -/
def strContains (hay needle : String) : Bool := containsSub needle.data hay.data

/-- A `res.partner` row: only the columns the resolver touches. -/
structure Partner where
  pid : Nat
  name : String
  phone : String
  mobile : String := ""
deriving DecidableEq, Repr

/-- The resolver's world: the partner table in search order, the id
sequence, and the process-global `_NUM_TO_PARTNER_CACHE` (a dict, modelled
as a binding list whose first match wins; an assignment prepends). -/
structure PartnerEnv where
  partners : List Partner := []
  nextId : Nat := 0
  cache : List (String × Nat) := []
deriving DecidableEq, Repr

/-- `cache.get(k)`. -/
def cacheGet (c : List (String × Nat)) (k : String) : Option Nat :=
  (c.find? (fun p => p.1 = k)).map (fun p => p.2)

/-- `cache[k] = v`. -/
def cacheSet (c : List (String × Nat)) (k : String) (v : Nat) : List (String × Nat) :=
  (k, v) :: c

/-- `Partners.browse(pid).exists()`. -/
def partnerExists (env : PartnerEnv) (pid : Nat) : Bool :=
  env.partners.any (fun p => p.pid = pid)

/-- `d_clean[-7:] if len(d_clean) > 7 else d_clean`. -/
def tailOf (d : String) : String :=
  if 7 < d.length then ⟨d.data.drop (d.length - 7)⟩ else d

/-- Steps 1-3 of `_get_or_create_partner_by_number` (utel_call.py lines
519-557), reached on a cache miss: exact `=` search on the compact form,
then a tail-`ilike` search (limit 100) verified strictly by digits, then a
create in compact format followed by the race-guard re-search
(`final = again or partner`; `again` cannot be empty once the compact-phone
partner is in the table, but the `or` fallback is transcribed anyway). -/
def partnerLookupOrCreate (env : PartnerEnv) (d : String) : PartnerEnv × Option Nat :=
  let compact := "+" ++ d
  match env.partners.find? (fun p => p.phone = compact ∨ p.mobile = compact) with
  | some p => ({ env with cache := cacheSet env.cache d p.pid }, some p.pid)
  | none =>
    let tail := tailOf d
    let possible :=
      (env.partners.filter (fun p => strContains p.phone tail || strContains p.mobile tail)).take 100
    match possible.find? (fun p => digitsOnly p.phone = d ∨ digitsOnly p.mobile = d) with
    | some p => ({ env with cache := cacheSet env.cache d p.pid }, some p.pid)
    | none =>
      let newId := env.nextId + 1
      let partner : Partner := { pid := newId, name := compact, phone := compact, mobile := "" }
      let partners1 := env.partners ++ [partner]
      match partners1.find? (fun p => p.phone = compact ∨ p.mobile = compact) with
      | some q =>
        ({ partners := partners1, nextId := newId, cache := cacheSet env.cache d q.pid }, some q.pid)
      | none =>
        ({ partners := partners1, nextId := newId, cache := cacheSet env.cache d partner.pid },
         some partner.pid)

/-- `_get_or_create_partner_by_number` (lines 498-557): canonicalize the
number; empty digits resolve to no partner; a truthy cached id whose row
still exists is returned at once, otherwise the lookup/create steps run. -/
def get_or_create_partner_by_number (env : PartnerEnv) (raw_digits : String) :
    PartnerEnv × Option Nat :=
  let d := digitsOnly (uzDigits raw_digits)
  if d = "" then (env, none)
  else
    match cacheGet env.cache d with
    | some pid =>
      if pid ≠ 0 ∧ partnerExists env pid then (env, some pid)
      else partnerLookupOrCreate env d
    | none => partnerLookupOrCreate env d

/-! ## Claim-side notions and concrete inputs -/

/-- Truncation of a timestamp to the minute, the granularity the spec claims
for the fingerprint. -/
def minuteTruncated : Option PyDateTime → Option PyDateTime :=
  Option.map (fun dt => { dt with second := 0 })

/-- The webhook authorization predicate exactly as the claim words it: the
Authorization header equals the bare secret, or equals the secret with a
case-insensitive `"Bearer "` prefix; and a secret must be configured. -/
def claimAuthorized (secret hdr : String) : Bool :=
  secret ≠ "" ∧
    (hdr = secret ∨
      (hdr.length = 7 + secret.length ∧ pyLower ⟨hdr.data.take 7⟩ = "bearer " ∧
        pyDrop hdr 7 = secret))

/-- The amended authorization predicate: as `claimAuthorized`, but on the
whitespace-stripped header, and with the remainder after the `"Bearer "`
prefix itself stripped before comparison. -/
def claimAuthorizedAmended (secret hdr : String) : Bool :=
  secret ≠ "" ∧
    (pyStrip hdr = secret ∨
      (pyStartsWith (pyLower (pyStrip hdr)) "bearer " ∧
        pyStrip (pyDrop (pyStrip hdr) 7) = secret))

/-- A representative vals dict for the upsert path (vendor id present). -/
def c2vals : Vals :=
  { utel_id := "42", date_time := some ⟨2024, 1, 1, 10, 0, 0⟩, type := "in",
    src := "998901112233", dst := "101", external_number := "" }

/-- Fingerprint input: 2024-01-01 10:00:00, inbound. -/
def c3recA : Vals :=
  { type := "in", date_time := some ⟨2024, 1, 1, 10, 0, 0⟩,
    src := "998901112233", dst := "101", external_number := "" }

/-- As `c3recA` but thirty seconds later within the same minute. -/
def c3recB : Vals := { c3recA with date_time := some ⟨2024, 1, 1, 10, 0, 30⟩ }

/-- Webhook configuration with the shared secret set. -/
def c4cfg : Config := { webhook_token := some "s3cret" }

/-- A well-formed first-time vendor record POSTed to the webhook. -/
def c4rec : VendorRec :=
  [("id", "7"), ("date_time", "2024-01-01 10:00:00"), ("type", "in"),
   ("src", "998901112233"), ("dst", "101")]

/-- Configuration whose DID list holds one 12-digit number. -/
def c6cfg : Config := { did_numbers := some "998711234567" }

/-- An inbound call whose source is the configured DID and whose destination
is a 3-digit internal extension. -/
def c6rec : CallView :=
  { type := "in", src := "998711234567", dst := "101", external_number := "" }

/-- Sync configuration: base URL and token set, page size 2. -/
def c8cfg : Config :=
  { base_url := some "https://api.example", token := some "T",
    per_page := some "2", auto_days := some "3" }

/-- First vendor page: two records (equal to the page size). -/
def c8page1 : List VendorRec :=
  [[("id", "1"), ("date_time", "2024-01-01 10:00:00"), ("type", "in")],
   [("id", "2"), ("date_time", "2024-01-01 10:05:00"), ("type", "out")]]

/-- Second vendor page: one record (fewer than the page size). -/
def c8page2 : List VendorRec :=
  [[("id", "3"), ("date_time", "2024-01-01 10:10:00"), ("type", "in")]]

/-- A two-page vendor response; pages beyond the second are empty. -/
def c8fetch : Nat → Except PyErr (List VendorRec) :=
  fun p => if p = 1 then .ok c8page1 else if p = 2 then .ok c8page2 else .ok []

/-- A vendor record carrying a play URL and no download URL. -/
def c10rec : VendorRec :=
  [("id", "7"), ("play_url", "http://a/b.mp3"), ("type", "incoming")]

/-- The vals `to_vals_fields` builds from `c10rec` (datetime absent). -/
def c10v : Vals :=
  { utel_id := "7", date_time := none, type := "in", src := "", dst := "",
    external_number := "", talk_time := 0, ring_time := 0, status := "",
    play_url := "http://a/b.mp3", download_url := "", has_recording := true,
    fp_key := "", company_id := none }

/-! ## Shared helper lemmas -/

/-- `_build_fp_key_from_vals` is not an attribute of the class. -/
theorem hasAttr_build_fp : utelCallHasAttr "_build_fp_key_from_vals" = false := by decide

/-- `_utel_tz` is not an attribute of the class. -/
theorem hasAttr_utel_tz : utelCallHasAttr "_utel_tz" = false := by decide

/-- `_parse_utel_datetime` is not an attribute of the class. -/
theorem hasAttr_parse_dt : utelCallHasAttr "_parse_utel_datetime" = false := by decide

/-- Filtering to digits twice equals filtering once. -/
theorem digitsOnly_idem (s : String) : digitsOnly (digitsOnly s) = digitsOnly s := by
  unfold digitsOnly
  simp [List.filter_filter]

/-- A number that `_is_internal_number` rejects has more than five digits. -/
theorem is_internal_false_len {cfg : Config} {d : String}
    (h : is_internal_number cfg d = false) : 5 < (digitsOnly d).length := by
  unfold is_internal_number at h
  dsimp only at h
  split at h
  · cases h
  · split at h
    · cases h
    · split at h
      · cases h
      · split at h
        · cases h
        · next hlen => omega

/-- `_uz_digits` of a non-internal digit string keeps more than five digits
(the country prefix only lengthens it). -/
theorem uzDigits_length_gt {cfg : Config} {raw : String}
    (h : is_internal_number cfg (digitsOnly raw) = false) :
    5 < (uzDigits (digitsOnly raw)).length := by
  have h5 : 5 < (digitsOnly (digitsOnly raw)).length := is_internal_false_len h
  rw [digitsOnly_idem] at h5
  unfold uzDigits
  rw [digitsOnly_idem]
  dsimp only
  split
  · rw [String.length_append]; omega
  · exact h5

/-- One `consider` step only appends numbers of more than five digits. -/
theorem considerStep_length {dids : List String} {cfg : Config}
    {st : List String × List String} {raw : String}
    (hst : ∀ n ∈ st.1, 5 < n.length) :
    ∀ n ∈ (considerStep dids cfg st raw).1, 5 < n.length := by
  unfold considerStep
  dsimp only
  split
  · exact hst
  · split
    · exact hst
    · split
      · exact hst
      · next hint =>
        intro n hn
        rcases List.mem_append.mp hn with h1 | h1
        · exact hst n h1
        · rw [List.mem_singleton.mp h1]
          exact uzDigits_length_gt (by simpa using hint)

/-- The primary `consider` pass only accumulates numbers of more than five
digits. -/
theorem foldl_consider_length (dids : List String) (cfg : Config) :
    ∀ (l : List String) (st : List String × List String),
    (∀ n ∈ st.1, 5 < n.length) →
    ∀ n ∈ (l.foldl (considerStep dids cfg) st).1, 5 < n.length := by
  intro l
  induction l with
  | nil => intro st h; simpa using h
  | cons x xs ih => intro st h; exact ih _ (considerStep_length h)

/-- One fallback step only appends numbers of more than five digits. -/
theorem fallbackStep_length {cfg : Config} {acc : List String} {raw : String}
    (h : ∀ n ∈ acc, 5 < n.length) : ∀ n ∈ fallbackStep cfg acc raw, 5 < n.length := by
  unfold fallbackStep
  dsimp only
  split
  · next hcond =>
    intro n hn
    rcases List.mem_append.mp hn with h1 | h1
    · exact h n h1
    · rw [List.mem_singleton.mp h1]
      exact uzDigits_length_gt (by simpa using hcond.2)
  · exact h

/-- The fallback pass only accumulates numbers of more than five digits. -/
theorem foldl_fallback_length (cfg : Config) :
    ∀ (l acc : List String), (∀ n ∈ acc, 5 < n.length) →
    ∀ n ∈ l.foldl (fallbackStep cfg) acc, 5 < n.length := by
  intro l
  induction l with
  | nil => intro acc h; simpa using h
  | cons x xs ih => intro acc h; exact ih _ (fallbackStep_length h)

/-- `dedupFirst` only keeps elements of its input. -/
theorem mem_of_mem_dedupFirst :
    ∀ (l seen : List String) (x : String), x ∈ dedupFirst seen l → x ∈ l := by
  intro l
  induction l with
  | nil => intro seen x h; cases h
  | cons a as ih =>
    intro seen x h
    unfold dedupFirst at h
    by_cases ha : a ∈ seen
    · rw [if_pos ha] at h; exact List.mem_cons_of_mem _ (ih seen x h)
    · rw [if_neg ha] at h
      rcases List.mem_cons.mp h with rfl | h2
      · exact List.mem_cons_self _ _
      · exact List.mem_cons_of_mem _ (ih (a :: seen) x h2)

/-- `dedupFirst` never emits a key it has already kept. -/
theorem dedupFirst_disjoint_seen :
    ∀ (l seen : List String) (x : String), x ∈ seen → x ∉ dedupFirst seen l := by
  intro l
  induction l with
  | nil => intro seen x hx h; cases h
  | cons a as ih =>
    intro seen x hx h
    unfold dedupFirst at h
    by_cases ha : a ∈ seen
    · rw [if_pos ha] at h; exact ih seen x hx h
    · rw [if_neg ha] at h
      rcases List.mem_cons.mp h with rfl | h2
      · exact ha hx
      · exact ih (a :: seen) x (List.mem_cons_of_mem _ hx) h2

/-- The output of `dedupFirst` holds no duplicates. -/
theorem dedupFirst_nodup : ∀ (l seen : List String), (dedupFirst seen l).Nodup := by
  intro l
  induction l with
  | nil => intro seen; exact List.nodup_nil
  | cons a as ih =>
    intro seen
    unfold dedupFirst
    by_cases ha : a ∈ seen
    · rw [if_pos ha]; exact ih seen
    · rw [if_neg ha]
      exact List.nodup_cons.mpr
        ⟨dedupFirst_disjoint_seen as (a :: seen) a (List.mem_cons_self a _), ih (a :: seen)⟩

/-- `dedupFirst` keeps the relative order of its input: the output is a
subsequence of the input. -/
theorem dedupFirst_sublist : ∀ (l seen : List String), (dedupFirst seen l).Sublist l := by
  intro l
  induction l with
  | nil => intro seen; exact List.Sublist.refl _
  | cons a as ih =>
    intro seen
    unfold dedupFirst
    by_cases ha : a ∈ seen
    · rw [if_pos ha]; exact (ih seen).cons a
    · rw [if_neg ha]; exact (ih (a :: seen)).cons₂ a

/-- `dedupFirst` drops nothing but duplicates: every input element outside
the already-kept keys appears in the output. -/
theorem mem_dedupFirst_of_mem : ∀ (l seen : List String) (x : String),
    x ∈ l → x ∉ seen → x ∈ dedupFirst seen l := by
  intro l
  induction l with
  | nil => intro seen x hx _; cases hx
  | cons a as ih =>
    intro seen x hx hns
    unfold dedupFirst
    by_cases ha : a ∈ seen
    · rw [if_pos ha]
      rcases List.mem_cons.mp hx with rfl | h2
      · exact absurd ha hns
      · exact ih seen x h2 hns
    · rw [if_neg ha]
      by_cases hxa : x = a
      · rw [hxa]; exact List.mem_cons_self _ _
      · rcases List.mem_cons.mp hx with rfl | h2
        · exact absurd rfl hxa
        · refine List.mem_cons_of_mem _ (ih (a :: seen) x h2 ?_)
          intro hmem
          rcases List.mem_cons.mp hmem with rfl | h3
          · exact hxa rfl
          · exact hns h3

/-- Membership in a list-valued `if` comes from one branch. -/
theorem mem_ite_list {c : Prop} [Decidable c] {a b : List String} {x : String}
    (h : x ∈ (if c then a else b)) : x ∈ a ∨ x ∈ b := by
  split at h
  · exact .inl h
  · exact .inr h

/-- A fresh cache assignment is what the next lookup of that key returns. -/
theorem cacheGet_cacheSet (c : List (String × Nat)) (k : String) (v : Nat) :
    cacheGet (cacheSet c k v) k = some v := by
  simp [cacheGet, cacheSet]

/-- `browse(pid).exists()` holds for the id of any stored partner. -/
theorem partnerExists_of_mem {env : PartnerEnv} {p : Partner} (hp : p ∈ env.partners) :
    partnerExists env p.pid = true := by
  unfold partnerExists
  exact List.any_eq_true.mpr ⟨p, hp, by simp⟩

/-- The lookup/create steps of the resolver return the id of a stored
partner, cache it under the canonical digits, add at most one row, and keep
every id non-zero. -/
theorem partnerLookupOrCreate_spec (env : PartnerEnv) (d : String)
    (hwf : ∀ p ∈ env.partners, p.pid ≠ 0) :
    ∃ p : Partner, p ∈ (partnerLookupOrCreate env d).1.partners ∧
      (partnerLookupOrCreate env d).2 = some p.pid ∧
      cacheGet (partnerLookupOrCreate env d).1.cache d = some p.pid ∧
      p.pid ≠ 0 ∧
      (partnerLookupOrCreate env d).1.partners.length ≤ env.partners.length + 1 ∧
      (∀ q ∈ (partnerLookupOrCreate env d).1.partners, q.pid ≠ 0) := by
  unfold partnerLookupOrCreate
  dsimp only
  cases hf : env.partners.find? (fun p => p.phone = "+" ++ d ∨ p.mobile = "+" ++ d) with
  | some p =>
    have hmem := List.mem_of_find?_eq_some hf
    exact ⟨p, hmem, rfl, cacheGet_cacheSet _ _ _, hwf p hmem, Nat.le_succ _, hwf⟩
  | none =>
    cases hf2 : (env.partners.filter
        (fun p => strContains p.phone (tailOf d) || strContains p.mobile (tailOf d))).take 100
        |>.find? (fun p => digitsOnly p.phone = d ∨ digitsOnly p.mobile = d) with
    | some p =>
      have hmem : p ∈ env.partners := by
        have h1 := List.mem_of_find?_eq_some hf2
        exact List.mem_of_mem_filter (List.mem_of_mem_take h1)
      exact ⟨p, hmem, rfl, cacheGet_cacheSet _ _ _, hwf p hmem, Nat.le_succ _, hwf⟩
    | none =>
      have hwf1 : ∀ q ∈ env.partners ++
          [({ pid := env.nextId + 1, name := "+" ++ d, phone := "+" ++ d, mobile := "" } : Partner)],
          q.pid ≠ 0 := by
        intro q hq
        rcases List.mem_append.mp hq with h1 | h1
        · exact hwf q h1
        · rw [List.mem_singleton.mp h1]; exact Nat.succ_ne_zero _
      have hlen : (env.partners ++
          [({ pid := env.nextId + 1, name := "+" ++ d, phone := "+" ++ d, mobile := "" } : Partner)]).length
          = env.partners.length + 1 := by simp
      cases hf3 : (env.partners ++
          [({ pid := env.nextId + 1, name := "+" ++ d, phone := "+" ++ d, mobile := "" } : Partner)]).find?
          (fun p => p.phone = "+" ++ d ∨ p.mobile = "+" ++ d) with
      | some q =>
        have hmem := List.mem_of_find?_eq_some hf3
        exact ⟨q, hmem, rfl, cacheGet_cacheSet _ _ _, hwf1 q hmem, le_of_eq hlen, hwf1⟩
      | none =>
        refine ⟨_, List.mem_append_right _ (List.mem_singleton_self _), rfl,
          cacheGet_cacheSet _ _ _, Nat.succ_ne_zero _, le_of_eq hlen, hwf1⟩

/-- A call of the resolver whose canonical digits hit a live cache entry
returns it and changes nothing. -/
theorem get_or_create_second (env1 : PartnerEnv) (raw : String) (pid : Nat)
    (hd : digitsOnly (uzDigits raw) ≠ "")
    (hc : cacheGet env1.cache (digitsOnly (uzDigits raw)) = some pid)
    (hnz : pid ≠ 0) (hex : partnerExists env1 pid = true) :
    get_or_create_partner_by_number env1 raw = (env1, some pid) := by
  unfold get_or_create_partner_by_number
  dsimp only
  rw [if_neg hd, hc]
  dsimp only
  rw [if_pos ⟨hnz, hex⟩]

/-- Any resolver call on a number with digits returns a live partner id,
caches it, adds at most one row and preserves non-zero ids. -/
theorem get_or_create_first (env : PartnerEnv) (raw : String)
    (hwf : ∀ p ∈ env.partners, p.pid ≠ 0)
    (hd : digitsOnly (uzDigits raw) ≠ "") :
    ∃ pid, (get_or_create_partner_by_number env raw).2 = some pid ∧
      cacheGet (get_or_create_partner_by_number env raw).1.cache
        (digitsOnly (uzDigits raw)) = some pid ∧
      pid ≠ 0 ∧ partnerExists (get_or_create_partner_by_number env raw).1 pid = true ∧
      (get_or_create_partner_by_number env raw).1.partners.length ≤ env.partners.length + 1 ∧
      (∀ p ∈ (get_or_create_partner_by_number env raw).1.partners, p.pid ≠ 0) := by
  unfold get_or_create_partner_by_number
  dsimp only
  rw [if_neg hd]
  cases hc : cacheGet env.cache (digitsOnly (uzDigits raw)) with
  | some pid0 =>
    dsimp only
    by_cases hg : pid0 ≠ 0 ∧ partnerExists env pid0 = true
    · rw [if_pos hg]
      exact ⟨pid0, rfl, hc, hg.1, hg.2, Nat.le_succ _, hwf⟩
    · rw [if_neg hg]
      obtain ⟨p, hmem, h2, h3, h4, h5, h6⟩ := partnerLookupOrCreate_spec env _ hwf
      exact ⟨p.pid, h2, h3, h4, partnerExists_of_mem hmem, h5, h6⟩
  | none =>
    dsimp only
    obtain ⟨p, hmem, h2, h3, h4, h5, h6⟩ := partnerLookupOrCreate_spec env _ hwf
    exact ⟨p.pid, h2, h3, h4, partnerExists_of_mem hmem, h5, h6⟩

/-! ## Claim theorems -/

/-- C1 counterexample: not *every* invocation of `create` fails — an
invocation with an empty vals list never runs the per-vals loop, so
`super().create([])` and the empty partner-assignment loop complete and no
`AttributeError` is raised. -/
theorem c1_counterexample_create_empty :
    model_create {} [] 1 = ({}, .ok []) := by decide

/-- C1 (amended): the helpers `_utel_tz`, `_parse_utel_datetime`,
`_build_fp_key_from_vals`, `_recompute_fp_key`, `_is_internal_number` and
`_external_candidates` are defined one indentation level too deep, inside
`_compute_type_icon_html`, so they are not attributes of the class; hence
every invocation of `_upsert_from_vals` raises `AttributeError`, every
invocation of `create` with a non-empty vals list raises `AttributeError`
(an empty vals list completes), and every invocation of
`action_sync_all_pages` whose configuration read succeeds raises
`AttributeError` before fetching anything (with unreadable configuration it
fails earlier with a configuration/parse error). -/
theorem c1_nested_helpers_fail :
    ("_build_fp_key_from_vals" ∈ computeTypeIconHtmlLocals ∧
     "_parse_utel_datetime" ∈ computeTypeIconHtmlLocals ∧
     "_utel_tz" ∈ computeTypeIconHtmlLocals ∧
     "_recompute_fp_key" ∈ computeTypeIconHtmlLocals ∧
     "_is_internal_number" ∈ computeTypeIconHtmlLocals ∧
     "_external_candidates" ∈ computeTypeIconHtmlLocals ∧
     utelCallHasAttr "_build_fp_key_from_vals" = false ∧
     utelCallHasAttr "_parse_utel_datetime" = false ∧
     utelCallHasAttr "_utel_tz" = false ∧
     utelCallHasAttr "_recompute_fp_key" = false ∧
     utelCallHasAttr "_is_internal_number" = false ∧
     utelCallHasAttr "_external_candidates" = false) ∧
    (∀ (db : CallDB) (vals : Vals) (company : Nat),
      upsert_from_vals db vals company = (db, .error .attributeError)) ∧
    (∀ (db : CallDB) (vl : List Vals) (company : Nat), vl ≠ [] →
      model_create db vl company = (db, .error .attributeError)) ∧
    (∀ (cfg : Config) (fetch : Nat → Except PyErr (List VendorRec)) (db : CallDB)
      (company page_limit : Nat),
      (get_conn cfg).isOk = true → (auto_days_of cfg).isSome = true →
      action_sync_all_pages cfg fetch db company page_limit = (db, .error .attributeError)) := by
  refine ⟨by decide, ?_, ?_, ?_⟩
  · intro db vals company
    simp [upsert_from_vals, hasAttr_build_fp]
  · intro db vl company hne
    cases vl with
    | nil => exact absurd rfl hne
    | cons v vs => simp [model_create, prepVals, hasAttr_build_fp]
  · intro cfg fetch db company page_limit h1 h2
    unfold action_sync_all_pages
    cases hg : get_conn cfg with
    | error e => rw [hg] at h1; cases h1
    | ok t =>
      obtain ⟨b, tok, pp⟩ := t
      cases hd : auto_days_of cfg with
      | none => rw [hd] at h2; cases h2
      | some d => simp [hd, hasAttr_utel_tz]

/-- C1 witness: the non-empty-create and configured-sync parts of
`c1_nested_helpers_fail` at concrete inputs. -/
theorem c1_witness :
    model_create {} [{ utel_id := "9" }] 1 = ({}, .error .attributeError) ∧
    action_sync_all_pages { base_url := some "https://b", token := some "t" }
      (fun _ => .ok []) {} 1 5 = ({}, .error .attributeError) :=
  ⟨c1_nested_helpers_fail.2.2.1 {} [{ utel_id := "9" }] 1 (by decide),
   c1_nested_helpers_fail.2.2.2 { base_url := some "https://b", token := some "t" }
     (fun _ => .ok []) {} 1 5 (by decide) (by decide)⟩

/-- C2 (code-bug evidence): upserting the same vendor id twice never yields
one stored record — both calls raise `AttributeError` at the
`self._build_fp_key_from_vals` lookup (a local function of
`_compute_type_icon_html`) and zero records are stored. -/
theorem c2_upsert_raises_attribute_error :
    upsert_from_vals {} c2vals 1 = ({}, .error .attributeError) ∧
    (upsert_from_vals (upsert_from_vals {} c2vals 1).1 c2vals 1).1.recs.length = 0 := by decide

/-- C3 counterexample: two records identical in direction, minute-truncated
timestamp and normalized numbers, differing only in the seconds field,
yield different fingerprints — the key uses second precision
(`%H:%M:%S`), not minute truncation. -/
theorem c3_counterexample_minute_truncation :
    c3recA.type = c3recB.type ∧
    minuteTruncated c3recA.date_time = minuteTruncated c3recB.date_time ∧
    digitsOnly c3recA.src = digitsOnly c3recB.src ∧
    digitsOnly c3recA.dst = digitsOnly c3recB.dst ∧
    digitsOnly c3recA.external_number = digitsOnly c3recB.external_number ∧
    build_fp_key_from_vals c3recA ≠ build_fp_key_from_vals c3recB := by decide

/-- C3 (amended): two records with identical direction, identical
second-precision timestamp and identical normalized source, destination and
external numbers get equal fingerprints (the pipe-joined composite). -/
theorem c3_fingerprint_equal_on_identical_fields :
    ∀ v1 v2 : Vals, v1.type = v2.type → v1.date_time = v2.date_time →
    digitsOnly v1.src = digitsOnly v2.src → digitsOnly v1.dst = digitsOnly v2.dst →
    digitsOnly v1.external_number = digitsOnly v2.external_number →
    build_fp_key_from_vals v1 = build_fp_key_from_vals v2 := by
  intro v1 v2 h1 h2 h3 h4 h5
  unfold build_fp_key_from_vals
  rw [h1, h2, h3, h4, h5]

/-- C3 witness: differently formatted renderings of the same numbers at the
same second collide. -/
theorem c3_witness :
    build_fp_key_from_vals
      { type := "in", date_time := some ⟨2024, 1, 1, 10, 0, 0⟩,
        src := "+998 90 111 22 33", dst := "(101)", external_number := "" } =
    build_fp_key_from_vals
      { type := "in", date_time := some ⟨2024, 1, 1, 10, 0, 0⟩,
        src := "998901112233", dst := "101", external_number := "" } :=
  c3_fingerprint_equal_on_identical_fields _ _ rfl rfl (by decide) (by decide) (by decide)

/-- C4 (code-bug evidence): a correctly authenticated first-time POST of
`{"data":[{...}]}` returns HTTP 200 but `created = 0`: `Model._to_vals`
raises `AttributeError` at the `self._parse_utel_datetime` lookup, the
per-record handler catches it and the record is skipped. -/
theorem c4_webhook_first_post_not_created :
    auth_ok c4cfg "Bearer s3cret" = true ∧
    to_vals c4rec = .error .attributeError ∧
    utel_webhook c4cfg "Bearer s3cret" (.jdict [] (some [c4rec])) {} 1 = ({}, .result 0 0) := by
  decide

/-- C5 counterexample: the plain-integer branch of the duration parsing in
`_to_vals` calls bare `int`, so a malformed non-colon string raises
`ValueError` instead of yielding 0. -/
theorem c5_counterexample_plain_int_raises :
    durationSeconds "abc" = .error .valueError ∧ durationSeconds "abc" ≠ .ok 0 := by decide

/-- C5 (amended): `"1:30"` gives 90 s, `"01:02:03"` gives 3723 s, `"45"`
gives 45, `""` gives 0, and every string containing `:` parses totally via
`_parse_hms` (never raises); only the non-empty, colon-free, non-integer
inputs raise. -/
theorem c5_duration_parsing_amended :
    durationSeconds "1:30" = .ok 90 ∧ durationSeconds "01:02:03" = .ok 3723 ∧
    durationSeconds "45" = .ok 45 ∧ durationSeconds "" = .ok 0 ∧
    (∀ s : String, pyContainsChar s ':' = true → durationSeconds s = .ok (parse_hms s)) := by
  refine ⟨by decide, by decide, by decide, by decide, ?_⟩
  intro s hs
  simp [durationSeconds, hs]

/-- C5 witness: the colon-totality part of `c5_duration_parsing_amended` at
a concrete input. -/
theorem c5_witness : durationSeconds "7:08" = .ok (parse_hms "7:08") :=
  c5_duration_parsing_amended.2.2.2.2 "7:08" (by decide)

/-- C6 counterexample: a configured 12-digit DID appears in the candidate
list — when the direction-ordered primary pass excludes everything, the
`if not out` fallback re-admits any non-internal source/destination number
without the DID check. -/
theorem c6_counterexample_did_in_candidates :
    "998711234567" ∈ company_dids c6cfg ∧
    "998711234567" ∈ external_candidates c6cfg c6rec := by decide

/-- C6 (amended): every number in the candidate list has more than five
digits, so a number of at most five digits never appears; and the list is
the candidate sequence deduplicated preserving first-seen order — it is
duplicate-free, a subsequence of the raw candidate sequence (relative order
kept), and it contains every element of that sequence.  The DID exclusion,
by contrast, only governs the direction-ordered primary pass and can be
bypassed by the fallback. -/
theorem c6_candidates_amended :
    ∀ (cfg : Config) (rec : CallView),
    (∀ n ∈ external_candidates cfg rec, 5 < n.length) ∧
    (external_candidates cfg rec).Nodup ∧
    (external_candidates cfg rec).Sublist (candidateSeq cfg rec) ∧
    (∀ n ∈ candidateSeq cfg rec, n ∈ external_candidates cfg rec) := by
  intro cfg rec
  refine ⟨?_, dedupFirst_nodup _ _, dedupFirst_sublist _ _, ?_⟩
  · intro n hn
    have hn' := mem_of_mem_dedupFirst _ _ _ hn
    unfold candidateSeq at hn'
    rcases mem_ite_list hn' with h | h
    · exact foldl_fallback_length cfg _ _ (by intro m hm; cases hm) n h
    · exact foldl_consider_length _ cfg _ ([], []) (by intro m hm; cases hm) n h
  · intro n hn
    exact mem_dedupFirst_of_mem _ [] n hn (by intro h; cases h)

/-- C7: resolving the same external number twice in one run creates at most
one contact — the first call stores at most one new partner and caches its
id under the canonical digits, and the second call returns that same
partner (via the cache backed by the exact compact-form match) without
touching the partner table. -/
theorem c7_resolver_idempotent :
    ∀ (env : PartnerEnv) (raw : String),
    (∀ p ∈ env.partners, p.pid ≠ 0) →
    ((get_or_create_partner_by_number env raw).1.partners.length ≤ env.partners.length + 1 ∧
     get_or_create_partner_by_number (get_or_create_partner_by_number env raw).1 raw =
       ((get_or_create_partner_by_number env raw).1,
        (get_or_create_partner_by_number env raw).2)) := by
  intro env raw hwf
  by_cases hd : digitsOnly (uzDigits raw) = ""
  · have h1 : get_or_create_partner_by_number env raw = (env, none) := by
      unfold get_or_create_partner_by_number
      dsimp only
      rw [if_pos hd]
    rw [h1]
    exact ⟨Nat.le_succ _, h1⟩
  · obtain ⟨pid, h2, h3, h4, h5, h6, h7⟩ := get_or_create_first env raw hwf hd
    have hsecond := get_or_create_second _ raw pid hd h3 h4 h5
    refine ⟨h6, ?_⟩
    rw [hsecond, h2]

/-- C7 witness: `c7_resolver_idempotent` on an empty partner table and the
number 901234567. -/
theorem c7_witness :
    ((get_or_create_partner_by_number {} "901234567").1.partners.length ≤
      ({} : PartnerEnv).partners.length + 1 ∧
     get_or_create_partner_by_number
       (get_or_create_partner_by_number {} "901234567").1 "901234567" =
       ((get_or_create_partner_by_number {} "901234567").1,
        (get_or_create_partner_by_number {} "901234567").2)) :=
  c7_resolver_idempotent {} "901234567" (by intro p hp; cases hp)

/-- C8 (code-bug evidence): with base URL, token and page size 2 configured
and a 2-page vendor response (2 records then 1, all timestamps parseable),
`action_sync_all_pages` does not stop after page 2 with `processed = 3` —
it raises `AttributeError` at the `self._utel_tz()` lookup before fetching
any page. -/
theorem c8_sync_raises_before_fetch :
    get_conn c8cfg = .ok ("https://api.example", "T", 2) ∧
    c8page1.length = 2 ∧ c8page2.length < 2 ∧
    (∀ r ∈ c8page1 ++ c8page2,
      (parse_dt_model (firstNonempty r ["date_time", "datetime", "time", "started_at"])).isSome
        = true) ∧
    action_sync_all_pages c8cfg c8fetch {} 1 5 = ({}, .error .attributeError) := by decide

/-- C9 counterexample: the webhook accepts an Authorization header with a
leading space, which equals neither the bare secret nor any
`"Bearer "`-prefixed form of it — the claimed "equals" if-and-only-if fails
because the code strips whitespace first. -/
theorem c9_counterexample_whitespace_header :
    auth_ok { webhook_token := some "s3cret" } " s3cret" = true ∧
    claimAuthorized "s3cret" " s3cret" = false := by decide

/-- C9 (amended): a request is authorized iff a secret is configured and
the whitespace-stripped Authorization header equals the bare secret or has
a case-insensitive `"Bearer "` prefix whose remainder, stripped, equals the
secret; every unauthorized request gets HTTP 401 with `ok = false`. -/
theorem c9_auth_amended :
    (∀ (cfg : Config) (hdr : String),
      auth_ok cfg hdr = claimAuthorizedAmended (cfg_token cfg) hdr) ∧
    (∀ (cfg : Config) (hdr : String) (body : WebhookBody) (db : CallDB) (company : Nat),
      auth_ok cfg hdr = false →
      (utel_webhook cfg hdr body db company).2.statusCode = 401 ∧
      (utel_webhook cfg hdr body db company).2.okField = false) := by
  constructor
  · intro cfg hdr
    unfold auth_ok claimAuthorizedAmended
    by_cases h : cfg_token cfg = ""
    · simp [h]
    · by_cases h2 : pyStrip hdr = cfg_token cfg
      · simp [h, h2]
      · by_cases h3 : pyStartsWith (pyLower (pyStrip hdr)) "bearer " = true ∧
            pyStrip (pyDrop (pyStrip hdr) 7) = cfg_token cfg
        · simp [h, h2, h3]
        · simp [h, h2, h3]
  · intro cfg hdr body db company h
    simp [utel_webhook, h, WebResp.statusCode, WebResp.okField]

/-- C9 witness: the 401 part of `c9_auth_amended` for a wrong token. -/
theorem c9_witness :
    (utel_webhook { webhook_token := some "sec" } "wrong" .jother {} 1).2.statusCode = 401 ∧
    (utel_webhook { webhook_token := some "sec" } "wrong" .jother {} 1).2.okField = false :=
  c9_auth_amended.2 { webhook_token := some "sec" } "wrong" .jother {} 1 (by decide)

/-- C10: every vals dict the sync/webhook normalization produces has
`has_recording` true exactly when `play_url` or `download_url` is
non-empty; since the upsert paths write these three keys together from that
dict, every record they create or update satisfies the invariant. -/
theorem c10_has_recording_iff :
    ∀ (rec : VendorRec) (dt : Option PyDateTime) (v : Vals),
    to_vals_fields rec dt = .ok v →
    (v.has_recording = true ↔ (v.play_url ≠ "" ∨ v.download_url ≠ "")) := by
  intro rec dt v h
  unfold to_vals_fields at h
  simp only [Except.bind, bind] at h
  cases h1 : durationSeconds (firstNonempty rec ["talk_time", "conversation", "duration"]) with
  | error e => rw [h1] at h; cases h
  | ok talk =>
    cases h2 : durationSeconds (firstNonempty rec ["ring_time", "ringing", "wait_time"]) with
    | error e => rw [h1, h2] at h; cases h
    | ok ring =>
      rw [h1, h2] at h
      cases h
      simp [Bool.or_eq_true, decide_eq_true_eq]

/-- C10 witness: `c10_has_recording_iff` on a record carrying a play URL. -/
theorem c10_witness :
    c10v.has_recording = true ↔ (c10v.play_url ≠ "" ∨ c10v.download_url ≠ "") :=
  c10_has_recording_iff c10rec none c10v (by decide)
